import Mathlib

/-!
# Verification of the Rego600/635 MQTT bridge protocol core

This file is a shallow embedding, in Lean 4, of the protocol/transport core of
the Rego600 MQTT bridge (`rego600_MQTT.py` with configuration from
`rego600_config.py`): the frame codec (checksum, register address encoding,
response decoding, display decoding), the register access layer's validation
logic, the wheel-turn and write-setting packet builders, the power/energy
derived-metrics computations, and the inbound MQTT command dispatcher.

Python integers are modelled as `Nat`/`Int` (all the byte-level values handled
here are non-negative), Python floats in the energy integration are modelled as
exact rationals (`ℚ`), fallible operations (functions that raise, or code paths
guarded by `try/except`) are modelled with `Option`, and the serial side effects
of an operation are modelled as the list of packets it would write.
-/

namespace Rego600

/-! ## Serial communication constants (module-level constants of the script) -/

def PUMP_ADDRESS : Nat := 0x81

def PC_ADDRESS : Nat := 0x01

def READ_FRONT_PANEL : Nat := 0x00

def WRITE_FRONT_PANEL : Nat := 0x01

def READ_SYSTEM_REGISTER : Nat := 0x02

def WRITE_SYSTEM_REGISTER : Nat := 0x03

def READ_DISPLAY : Nat := 0x20

/-! ## Frame codec -/

/-- Embeds `calculate_checksum`: XOR of the bytes at positions 2..7 of the
packet (Python slice `packet[2:8]`), starting from 0. -/
def calculate_checksum (packet : List Nat) : Nat :=
  ((packet.drop 2).take 6).foldl (fun checksum byte => checksum ^^^ byte) 0

/-- Embeds `encode_register`: splits an address into the three wire bytes
`[(a &&& 0xC000) >>> 14, (a &&& 0x3F80) >>> 7, a &&& 0x007F]`. -/
def encode_register (reg_addr : Nat) : List Nat :=
  [(reg_addr &&& 0xC000) >>> 14,
   (reg_addr &&& 0x3F80) >>> 7,
   reg_addr &&& 0x007F]

/-- Embeds `build_request`: `[address, command] ++ reg bytes ++ [0,0,0]` with the
checksum appended. -/
def build_request (address command register : Nat) : List Nat :=
  let reg_bytes := encode_register register
  let value := [0x00, 0x00, 0x00]
  let packet := [address, command] ++ reg_bytes ++ value
  packet ++ [calculate_checksum packet]

/-- Embeds `decode_rego_response`: raises (`none`) on a response shorter than 5
bytes, otherwise strips the top bit of bytes 1..3, reassembles 21 bits and
sign-folds bit 16. -/
def decode_rego_response (data : List Nat) : Option Int :=
  if data.length < 5 then none
  else
    let b1 := data.getD 1 0 &&& 0x7F
    let b2 := data.getD 2 0 &&& 0x7F
    let b3 := data.getD 3 0 &&& 0x7F
    let raw_value := (b1 <<< 14) ||| (b2 <<< 7) ||| b3
    if raw_value &&& 0x10000 ≠ 0 then some ((raw_value : Int) - 0x20000)
    else some (raw_value : Int)

/-- Reassembly of a 3-byte encoded register address exactly as
`decode_rego_response` treats response bytes 1..3: strip the top bit of each
byte and compute `(b0 <<< 14) ||| (b1 <<< 7) ||| b2`. -/
def decode_address_bytes (bytes : List Nat) : Nat :=
  ((bytes.getD 0 0 &&& 0x7F) <<< 14) |||
  ((bytes.getD 1 0 &&& 0x7F) <<< 7) |||
  (bytes.getD 2 0 &&& 0x7F)

/-- Embeds `validate_response_checksum`: XOR of bytes 1..3 must equal byte 4. -/
def validate_response_checksum (response : List Nat) : Bool :=
  (response.getD 1 0 ^^^ response.getD 2 0 ^^^ response.getD 3 0) == response.getD 4 0

/-! ## Register access layer

`read_register` performs the serial exchange and then validates the response;
the embedding takes the raw response bytes the serial port returned and models
the validation/decode pipeline.  A `none` result models the Python `return
None` paths (incomplete response, wrong echo address, checksum mismatch, decode
`ValueError`). -/

/-- Embeds the validation/decode pipeline of `read_register` applied to the
bytes the serial port returned. -/
def read_register {α : Type} (response : List Nat) (expected_length : Nat)
    (decode_func : List Nat → Option α) : Option α :=
  if response.length ≠ expected_length then none
  else if response.getD 0 0 ≠ PC_ADDRESS then none
  else if expected_length = 5 ∧ validate_response_checksum response = false then none
  else decode_func response

/-- Embeds `read_sensor` (READ_SYSTEM_REGISTER, 5-byte response). -/
def read_sensor (response : List Nat) : Option Int :=
  read_register response 5 decode_rego_response

/-- Embeds `read_led_state` (READ_FRONT_PANEL, 5-byte response). -/
def read_led_state (response : List Nat) : Option Int :=
  read_register response 5 decode_rego_response

/-- Embeds `read_setting` (READ_SYSTEM_REGISTER, 5-byte response). -/
def read_setting (response : List Nat) : Option Int :=
  read_register response 5 decode_rego_response

/-! ## Bitwise helper lemmas -/

/-- Right shift distributes over bitwise and. -/
theorem shiftRight_and_split (x y k : Nat) : (x &&& y) >>> k = (x >>> k) &&& (y >>> k) := by
  apply Nat.eq_of_testBit_eq
  intro i
  simp [Nat.testBit_shiftRight, Nat.testBit_and]

/-- Masking with `0x7F` is reduction modulo 128. -/
theorem and_7F_eq_mod (x : Nat) : x &&& 0x7F = x % 128 := by
  have h := Nat.and_pow_two_sub_one_eq_mod x 7
  norm_num at h
  exact h

/-- Masking with `0x3FFF` is reduction modulo 16384. -/
theorem and_3FFF_eq_mod (x : Nat) : x &&& 0x3FFF = x % 16384 := by
  have h := Nat.and_pow_two_sub_one_eq_mod x 14
  norm_num at h
  exact h

/-- For an address below `2^14` the top two encoded bits vanish. -/
theorem and_C000_eq_zero {addr : Nat} (h : addr < 16384) : addr &&& 0xC000 = 0 := by
  have h1 : addr &&& 0x3FFF = addr := by
    rw [and_3FFF_eq_mod, Nat.mod_eq_of_lt h]
  have hlit : (0x3FFF &&& 0xC000 : Nat) = 0 := by decide
  calc addr &&& 0xC000 = (addr &&& 0x3FFF) &&& 0xC000 := by rw [h1]
    _ = addr &&& (0x3FFF &&& 0xC000) := Nat.and_assoc ..
    _ = addr &&& 0 := by rw [hlit]
    _ = 0 := Nat.and_zero addr

/-- C1: for every register address `addr ≤ 0x3FFF`, stripping the top bit of
each of the three bytes produced by `encode_register addr` and reassembling
them as `(b0 <<< 14) ||| (b1 <<< 7) ||| b2` — exactly as `decode_rego_response`
treats response bytes 1..3 — yields `addr` again. -/
theorem C1_encode_register_roundtrip (addr : Nat) (h : addr ≤ 0x3FFF) :
    decode_address_bytes (encode_register addr) = addr := by
  have hlt : addr < 16384 := by omega
  have hb1 : (addr &&& 0x3F80) >>> 7 = addr / 128 % 128 := by
    rw [shiftRight_and_split]
    have h380 : (0x3F80 : Nat) >>> 7 = 0x7F := by decide
    rw [h380, and_7F_eq_mod, Nat.shiftRight_eq_div_pow]
  simp only [decode_address_bytes, encode_register, List.getD_cons_zero, List.getD_cons_succ]
  rw [and_C000_eq_zero hlt, hb1]
  simp only [and_7F_eq_mod]
  have hz : (((0 : Nat) >>> 14) % 128) <<< 14 = 0 := by decide
  rw [hz, Nat.zero_or]
  have hq : addr / 128 % 128 % 128 = addr / 128 % 128 := Nat.mod_mod_of_dvd _ dvd_rfl
  have hr : addr % 128 % 128 = addr % 128 := Nat.mod_mod_of_dvd _ dvd_rfl
  rw [hq, hr]
  have hsl : (addr / 128 % 128) <<< 7 = 128 * (addr / 128 % 128) := by
    rw [Nat.shiftLeft_eq]
    ring
  rw [hsl]
  have hor := Nat.mul_add_lt_is_or (b := addr % 128) (i := 7)
    (by omega) (addr / 128 % 128)
  norm_num at hor
  rw [← hor]
  omega

/-- Concrete instance of `C1_encode_register_roundtrip` at `addr = 0x1234`. -/
theorem C1_witness :
    (0x1234 ≤ 0x3FFF) ∧ decode_address_bytes (encode_register 0x1234) = 0x1234 :=
  ⟨by decide, C1_encode_register_roundtrip 0x1234 (by decide)⟩

/-- C2: a response with a wrong length, a wrong echo address (first byte
different from `PC_ADDRESS = 0x01`), a failing checksum (XOR of bytes 1..3
different from byte 4), or a failing decode, makes `read_register` — and hence
`read_sensor`, `read_led_state` and `read_setting` — return the absent sentinel
`none` rather than letting an exception escape. -/
theorem C2_read_register_faults (response : List Nat)
    (h : response.length ≠ 5 ∨ response.getD 0 0 ≠ PC_ADDRESS ∨
         validate_response_checksum response = false ∨
         decode_rego_response response = none) :
    read_sensor response = none ∧ read_led_state response = none ∧
      read_setting response = none := by
  have key : read_register response 5 decode_rego_response = none := by
    unfold read_register
    split_ifs with h1 h2 h3
    · rfl
    · rfl
    · rfl
    · rcases h with h | h | h | h
      · exact absurd h h1
      · exact absurd h h2
      · exact absurd ⟨rfl, h⟩ h3
      · exact h
  exact ⟨key, key, key⟩

/-- Concrete instance of `C2_read_register_faults`: a 5-byte response whose
echo address byte is `0x02` instead of `0x01` yields `none` from all three
readers. -/
theorem C2_witness :
    read_sensor [0x02, 0x00, 0x00, 0x00, 0x00] = none ∧
      read_led_state [0x02, 0x00, 0x00, 0x00, 0x00] = none ∧
      read_setting [0x02, 0x00, 0x00, 0x00, 0x00] = none :=
  C2_read_register_faults [0x02, 0x00, 0x00, 0x00, 0x00]
    (Or.inr (Or.inl (by decide)))

/-- C7: `calculate_checksum` of a 9-byte packet is the XOR of the bytes at
positions 2..7 and is invariant under any permutation of those six bytes, and
every frame produced by `build_request` ends with the checksum of its register
and value bytes. -/
theorem C7_checksum_invariance :
    (∀ (a b a2 b2 : Nat) (l l2 rest rest2 : List Nat),
      l.length = 6 → l.Perm l2 →
      calculate_checksum ([a, b] ++ l ++ rest) =
        calculate_checksum ([a2, b2] ++ l2 ++ rest2)) ∧
    (∀ address command register : Nat,
      (build_request address command register).getLast? =
        some ((encode_register register ++ [0x00, 0x00, 0x00]).foldl
          (fun checksum byte => checksum ^^^ byte) 0)) := by
  constructor
  · intro a b a2 b2 l l2 rest rest2 hlen hperm
    have hlen2 : l2.length = 6 := by rw [← hperm.length_eq, hlen]
    have htake : ∀ (c d : Nat) (m rest3 : List Nat), m.length = 6 →
        ((([c, d] ++ m ++ rest3).drop 2).take 6) = m := by
      intro c d m rest3 hm
      simp [List.take_append_eq_append_take, hm]
    unfold calculate_checksum
    rw [htake a b l rest hlen, htake a2 b2 l2 rest2 hlen2]
    exact hperm.foldl_eq' (fun x _ y _ z => by
      show z ^^^ x ^^^ y = z ^^^ y ^^^ x
      rw [Nat.xor_assoc, Nat.xor_assoc, Nat.xor_comm x y]) 0
  · intro address command register
    show (build_request address command register).getLast? = _
    unfold build_request calculate_checksum
    simp [encode_register]

/-- Concrete instance of `C7_checksum_invariance`: reordering the six
register/value bytes of a packet leaves its checksum unchanged. -/
theorem C7_witness :
    calculate_checksum ([0x81, 0x02] ++ [1, 2, 3, 4, 5, 6] ++ [7]) =
      calculate_checksum ([0x11, 0x22] ++ [6, 5, 4, 3, 2, 1] ++ [9]) :=
  C7_checksum_invariance.1 0x81 0x02 0x11 0x22 [1, 2, 3, 4, 5, 6]
    [6, 5, 4, 3, 2, 1] [7] [9] (by decide) (by decide)

/-! ## Write-path packet builders -/

/-- Embeds the packet assembled by `write_setting` before it is written to the
serial channel: `[PUMP_ADDRESS, WRITE_SYSTEM_REGISTER]`, the encoded register,
the encoded value, and the checksum. -/
def write_setting_packet (reg_addr value : Nat) : List Nat :=
  let reg_bytes := encode_register reg_addr
  let value_bytes := encode_register value
  let packet := [PUMP_ADDRESS, WRITE_SYSTEM_REGISTER] ++ reg_bytes ++ value_bytes
  packet ++ [calculate_checksum packet]

/-- Bound for the top encoded byte: `(x &&& 0xC000) >>> 14 ≤ 3`. -/
theorem encode_byte0_le (x : Nat) : (x &&& 0xC000) >>> 14 ≤ 0x03 := by
  have h1 : x &&& 0xC000 ≤ 0xC000 := Nat.and_le_right
  have h2 : (x &&& 0xC000) >>> 14 ≤ (0xC000 : Nat) >>> 14 := by
    rw [Nat.shiftRight_eq_div_pow, Nat.shiftRight_eq_div_pow]
    exact Nat.div_le_div_right h1
  calc (x &&& 0xC000) >>> 14 ≤ (0xC000 : Nat) >>> 14 := h2
    _ = 0x03 := by decide

/-- Bound for the middle encoded byte: `(x &&& 0x3F80) >>> 7 ≤ 0x7F`. -/
theorem encode_byte1_le (x : Nat) : (x &&& 0x3F80) >>> 7 ≤ 0x7F := by
  have h1 : x &&& 0x3F80 ≤ 0x3F80 := Nat.and_le_right
  have h2 : (x &&& 0x3F80) >>> 7 ≤ (0x3F80 : Nat) >>> 7 := by
    rw [Nat.shiftRight_eq_div_pow, Nat.shiftRight_eq_div_pow]
    exact Nat.div_le_div_right h1
  calc (x &&& 0x3F80) >>> 7 ≤ (0x3F80 : Nat) >>> 7 := h2
    _ = 0x7F := by decide

/-- C9: each of the three bytes produced by `encode_register` has its high bit
clear, for every address (and hence for every value encoded the same way): the
first byte is at most `0x03`, the others at most `0x7F`; consequently all six
register/value bytes of the packet built by `write_setting` are 7-bit clean. -/
theorem C9_encoded_bytes_seven_bit (addr value : Nat) :
    (encode_register addr).getD 0 0 ≤ 0x03 ∧
    (encode_register addr).getD 1 0 ≤ 0x7F ∧
    (encode_register addr).getD 2 0 ≤ 0x7F ∧
    (∀ byte ∈ ((write_setting_packet addr value).drop 2).take 6, byte ≤ 0x7F) := by
  refine ⟨encode_byte0_le addr, encode_byte1_le addr, Nat.and_le_right, ?_⟩
  intro byte hmem
  have hexp : ((write_setting_packet addr value).drop 2).take 6 =
      [(addr &&& 0xC000) >>> 14, (addr &&& 0x3F80) >>> 7, addr &&& 0x007F,
       (value &&& 0xC000) >>> 14, (value &&& 0x3F80) >>> 7, value &&& 0x007F] := by
    simp [write_setting_packet, encode_register]
  rw [hexp] at hmem
  have hb0a := encode_byte0_le addr
  have hb0v := encode_byte0_le value
  have hb1a := encode_byte1_le addr
  have hb1v := encode_byte1_le value
  have hb2a : addr &&& 0x007F ≤ 0x7F := Nat.and_le_right
  have hb2v : value &&& 0x007F ≤ 0x7F := Nat.and_le_right
  simp only [List.mem_cons, List.not_mem_nil, or_false] at hmem
  rcases hmem with rfl | rfl | rfl | rfl | rfl | rfl
  · omega
  · exact hb1a
  · exact hb2a
  · omega
  · exact hb1v
  · exact hb2v

/-- Concrete instance of `C9_encoded_bytes_seven_bit`: the second wire byte of
the packet written for register `0x1234`, value `44`, is 7-bit clean. -/
theorem C9_witness :
    ((36 : Nat) ∈ ((write_setting_packet 0x1234 44).drop 2).take 6) ∧ (36 : Nat) ≤ 0x7F :=
  ⟨by decide, (C9_encoded_bytes_seven_bit 0x1234 44).2.2.2 36 (by decide)⟩

/-! ## Wheel turning (`turn_wheel`) -/

/-- Address of the `Wheel` entry of `KEYPANEL_MAP`. -/
def KEYPANEL_WHEEL : Nat := 0x0044

/-- Embeds the direction-to-sentinel dispatch of `turn_wheel`: `left` maps to
`0x1FFFFF`, `right` to `0x000001`, anything else is rejected (the function
logs and returns `False` before touching the serial channel). -/
def turn_wheel_value (direction : String) : Option Nat :=
  if direction = "left" then some 0x1FFFFF
  else if direction = "right" then some 0x000001
  else none

/-- Embeds the value-byte computation of `turn_wheel`: the list
`[(v & 0xC0000) >> 18, (v & 0x3F800) >> 11, (v & 0x007F00) >> 4]` whose last
entry is then overwritten with `(v & 0x0000FF) >> 0 & 0x7F`. -/
def turn_wheel_value_bytes (value : Nat) : List Nat :=
  let value_bytes := [(value &&& 0xC0000) >>> 18,
                      (value &&& 0x3F800) >>> 11,
                      (value &&& 0x007F00) >>> 4]
  value_bytes.set 2 (((value &&& 0x0000FF) >>> 0) &&& 0x7F)

/-- Embeds the packet `turn_wheel` writes to the serial channel: `none` when
the direction is invalid (nothing is written), otherwise the
`WRITE_FRONT_PANEL` packet for the wheel register with the sentinel's value
bytes and the checksum. -/
def turn_wheel_packet (direction : String) : Option (List Nat) :=
  let reg_bytes := encode_register KEYPANEL_WHEEL
  match turn_wheel_value direction with
  | none => none
  | some value =>
    let value_bytes := turn_wheel_value_bytes value
    let packet := [PUMP_ADDRESS, WRITE_FRONT_PANEL] ++ reg_bytes ++ value_bytes
    some (packet ++ [calculate_checksum packet])

/-- Serial writes performed by `turn_wheel`: one packet on a valid direction,
nothing otherwise. -/
def turn_wheel_writes (direction : String) : List (List Nat) :=
  match turn_wheel_packet direction with
  | none => []
  | some packet => [packet]

/-- C3 counterexample: for both directions the value bytes put on the wire by
`turn_wheel` differ from the claimed `[(v>>18)&0x7F, (v>>11)&0x7F, (v>>4)&0x7F]`:
for `right` (`v = 0x000001`) the code produces `[0,0,1]` but the claimed formula
gives `[0,0,0]`, and for `left` (`v = 0x1FFFFF`) the code produces
`[3,127,127]` but the claimed formula gives `[7,127,127]`. -/
theorem C3_counterexample :
    turn_wheel_value_bytes 0x000001 = [0x00, 0x00, 0x01] ∧
    turn_wheel_value_bytes 0x000001 ≠
      [(0x000001 >>> 18) &&& 0x7F, (0x000001 >>> 11) &&& 0x7F, (0x000001 >>> 4) &&& 0x7F] ∧
    turn_wheel_value_bytes 0x1FFFFF = [0x03, 0x7F, 0x7F] ∧
    turn_wheel_value_bytes 0x1FFFFF ≠
      [(0x1FFFFF >>> 18) &&& 0x7F, (0x1FFFFF >>> 11) &&& 0x7F, (0x1FFFFF >>> 4) &&& 0x7F] := by
  refine ⟨by decide, by decide, by decide, by decide⟩

/-- C3 (amended): `turn_wheel` encodes the sentinel `v` into the value bytes
`[(v & 0xC0000) >> 18, (v & 0x3F800) >> 11, v & 0x7F]` — the `>> 4` expression
is computed but immediately overwritten — so the full wire frames are
`[0x81, 0x01, 0, 0, 0x44, 3, 127, 127, 0x47]` for `left` and
`[0x81, 0x01, 0, 0, 0x44, 0, 0, 1, 0x45]` for `right`. -/
theorem C3_turn_wheel_encoding :
    turn_wheel_packet "left" =
      some [0x81, 0x01, 0x00, 0x00, 0x44, 0x03, 0x7F, 0x7F, 0x47] ∧
    turn_wheel_packet "right" =
      some [0x81, 0x01, 0x00, 0x00, 0x44, 0x00, 0x00, 0x01, 0x45] ∧
    ∀ v : Nat, turn_wheel_value_bytes v =
      [(v &&& 0xC0000) >>> 18, (v &&& 0x3F800) >>> 11, v &&& 0x7F] := by
  refine ⟨by decide, by decide, ?_⟩
  intro v
  simp only [turn_wheel_value_bytes, List.set_cons_zero, List.set_cons_succ,
    Nat.shiftRight_zero, List.cons.injEq, and_true, true_and]
  rw [Nat.and_assoc]
  have h255 : (0xFF &&& 0x7F : Nat) = 0x7F := by decide
  rw [h255]

/-- C10: for any direction other than `left` and `right`, `turn_wheel` builds
no packet and writes nothing to the serial channel (it returns `False` before
acquiring the serial lock). -/
theorem C10_turn_wheel_invalid_direction (direction : String)
    (hleft : direction ≠ "left") (hright : direction ≠ "right") :
    turn_wheel_packet direction = none ∧ turn_wheel_writes direction = [] := by
  have hv : turn_wheel_value direction = none := by
    unfold turn_wheel_value
    rw [if_neg hleft, if_neg hright]
  constructor
  · unfold turn_wheel_packet
    rw [hv]
  · unfold turn_wheel_writes turn_wheel_packet
    rw [hv]

/-- Concrete instance of `C10_turn_wheel_invalid_direction` at direction
`"up"`. -/
theorem C10_witness :
    turn_wheel_packet "up" = none ∧ turn_wheel_writes "up" = [] :=
  C10_turn_wheel_invalid_direction "up" (by decide) (by decide)

/-! ## Energy integration (`monitor_loop`) -/

/-- Embeds one energy-integration step of `monitor_loop`:
`dt_hours = (now_energy - last_energy_update) / 3600.0` and
`energy_total_kwh += (total_power_w * dt_hours) / 1000.0`, over exact
rationals. -/
def energy_step (energy_total_kwh total_power_w last_energy_update now_energy : ℚ) : ℚ :=
  energy_total_kwh + total_power_w * ((now_energy - last_energy_update) / 3600) / 1000

/-- C5: each full-sweep cycle adds exactly
`instantaneousPower * elapsedHours / 1000` kWh to the accumulator; in
particular 1000 W held for 3600 s adds exactly 1 kWh. -/
theorem C5_energy_integration :
    (∀ e p last now : ℚ,
      energy_step e p last now = e + p * ((now - last) / 3600) / 1000) ∧
    (∀ e t : ℚ, energy_step e 1000 t (t + 3600) = e + 1) := by
  constructor
  · intro e p last now
    rfl
  · intro e t
    unfold energy_step
    ring_nf

/-! ## Pump profile: wattage table and binary-sensor map -/

/-- Wattage table (`POWER_VALUES`). -/
structure PowerValues where
  compressor : Nat
  add_heat_3kw : Nat
  add_heat_6kw : Nat
  pump_p1 : Nat
  pump_p2 : Nat
  pump_p3 : Nat
deriving DecidableEq, Repr

/-- Embeds `POWER_VALUES` after the chain of `PUMP_SIZE_KW`-dependent
updates applied at module load. -/
def power_values (pump_size_kw : Nat) : PowerValues :=
  let pv : PowerValues :=
    { compressor := 1500, add_heat_3kw := 3000, add_heat_6kw := 6000,
      pump_p1 := 55, pump_p2 := 46, pump_p3 := 106 }
  let pv := if pump_size_kw = 4 then
    { pv with compressor := 1100, pump_p1 := 0, pump_p2 := 35, pump_p3 := 70 } else pv
  let pv := if pump_size_kw = 7 then { pv with compressor := 1850 } else pv
  let pv := if pump_size_kw = 9 then { pv with compressor := 2500 } else pv
  let pv := if pump_size_kw = 11 then { pv with compressor := 4600 } else pv
  let pv := if pump_size_kw = 14 then
    { pv with compressor := 4100, add_heat_3kw := 5250, add_heat_6kw := 10500 } else pv
  let pv := if pump_size_kw = 16 then
    { pv with
        compressor := 4600
        add_heat_3kw := 5250
        add_heat_6kw := 10500
        pump_p1 := 90
        pump_p2 := 165 }
    else pv
  pv

/-- Embeds `BINARY_SENSOR_MAP` (an insertion-ordered dict) including the
pump-size-dependent auxiliary-heat entries: `Add heat 5kw`/`Add heat 10kw` for
14 and 16 kW pumps, `Add heat 3kw`/`Add heat 6kw` otherwise. -/
def binary_sensor_map (pump_size_kw : Nat) : List (String × Nat) :=
  [("Three-way Valve", 0x0205),
   ("Add Heat Percentage", 0x006C),
   ("Radiator Pump P1", 0x0203),
   ("Heat carrier pump P2", 0x0204),
   ("Ground loop pump P3", 0x01FD),
   ("Compressor", 0x01FE),
   ("Alarm", 0x0206)] ++
  (if pump_size_kw = 14 ∨ pump_size_kw = 16 then
    [("Add heat 5kw", 0x01FF), ("Add heat 10kw", 0x0200)]
  else
    [("Add heat 3kw", 0x01FF), ("Add heat 6kw", 0x0200)])

/-- Python dict subscript: `some` the value of the key, `none` models the
`KeyError` raised when the key is absent. -/
def mapLookup (m : List (String × Nat)) (key : String) : Option Nat :=
  match m.find? (fun kv => kv.1 = key) with
  | some kv => some kv.2
  | none => none

/-- Embeds `publish_power_sensors`: reads the six component booleans through
the hard-coded `BINARY_SENSOR_MAP` keys, sums the wattages of the active
components, and publishes each component and the total.  Any exception inside
the body — in particular the `KeyError` from a missing dict key — is caught by
the surrounding `except`, which publishes nothing and returns 0.  The result is
the list of published `power/<name>` values together with the returned total.
`read_sensor_at` gives the `read_sensor` result for a register address. -/
def publish_power_sensors (pump_size_kw : Nat) (read_sensor_at : Nat → Option Int) :
    List (String × Nat) × Nat :=
  let lookups : Option (Nat × Nat × Nat × Nat × Nat × Nat) := do
    let aCompressor ← mapLookup (binary_sensor_map pump_size_kw) "Compressor"
    let aAdd3 ← mapLookup (binary_sensor_map pump_size_kw) "Add heat 3kw"
    let aAdd6 ← mapLookup (binary_sensor_map pump_size_kw) "Add heat 6kw"
    let aP1 ← mapLookup (binary_sensor_map pump_size_kw) "Radiator Pump P1"
    let aP2 ← mapLookup (binary_sensor_map pump_size_kw) "Heat carrier pump P2"
    let aP3 ← mapLookup (binary_sensor_map pump_size_kw) "Ground loop pump P3"
    pure (aCompressor, aAdd3, aAdd6, aP1, aP2, aP3)
  match lookups with
  | none => ([], 0)
  | some (aCompressor, aAdd3, aAdd6, aP1, aP2, aP3) =>
    let pv := power_values pump_size_kw
    let power_map : List (String × Nat) :=
      [("compressor", if read_sensor_at aCompressor = some 1 then pv.compressor else 0),
       ("add_heat_3kw", if read_sensor_at aAdd3 = some 1 then pv.add_heat_3kw else 0),
       ("add_heat_6kw", if read_sensor_at aAdd6 = some 1 then pv.add_heat_6kw else 0),
       ("pump_p1", if read_sensor_at aP1 = some 1 then pv.pump_p1 else 0),
       ("pump_p2", if read_sensor_at aP2 = some 1 then pv.pump_p2 else 0),
       ("pump_p3", if read_sensor_at aP3 = some 1 then pv.pump_p3 else 0)]
    let total := (power_map.map Prod.snd).sum
    (power_map ++ [("total", total)], total)

/-- C4 evaluation at the failing input: for a 14 kW pump (likewise 16 kW), the
binary-sensor map holds `Add heat 5kw`/`Add heat 10kw`, so the hard-coded
lookup of `Add heat 3kw` in `publish_power_sensors` raises `KeyError`, the
handler catches it, and the function publishes nothing and returns 0 even with
every component reading active — instead of the claimed sum of active wattages
(`4100 + 5250 + 10500 + 55 + 46 + 106 = 20057`).  For the base 5 kW profile the
claimed behaviour does hold. -/
theorem C4_power_pump14_always_zero :
    mapLookup (binary_sensor_map 14) "Add heat 3kw" = none ∧
    mapLookup (binary_sensor_map 16) "Add heat 3kw" = none ∧
    publish_power_sensors 14 (fun _ => some 1) = ([], 0) ∧
    publish_power_sensors 16 (fun _ => some 1) = ([], 0) ∧
    publish_power_sensors 5 (fun _ => some 1) =
      ([("compressor", 1500), ("add_heat_3kw", 3000), ("add_heat_6kw", 6000),
        ("pump_p1", 55), ("pump_p2", 46), ("pump_p3", 106), ("total", 10707)], 10707) := by
  refine ⟨rfl, rfl, rfl, rfl, rfl⟩

/-! ## Display decoding (`decode_display_response`) -/

/-- Characters removed by Python `str.strip()` (all code points below 0x100
for which `str.isspace()` holds; the display characters all lie below 0x100). -/
def isPySpace (c : Char) : Bool :=
  c == ' ' || c == '\t' || c == '\n' || c.toNat == 0x0D || c.toNat == 0x0B ||
  c.toNat == 0x0C || c.toNat == 0x1C || c.toNat == 0x1D || c.toNat == 0x1E ||
  c.toNat == 0x1F || c.toNat == 0x85 || c.toNat == 0xA0

/-- Python `str.strip()`: drop whitespace from both ends. -/
def pyStrip (s : List Char) : List Char :=
  ((s.dropWhile isPySpace).reverse.dropWhile isPySpace).reverse

/-- Embeds the per-character step of `decode_display_response`: the character
with the given code, with the filler glyph mapped to the empty string and the
degree glyph mapped to `°`. -/
def display_char (char_code : Nat) : List Char :=
  let char := Char.ofNat char_code
  if char = 'ÿ' then []
  else if char = 'ß' then ['°']
  else [char]

/-- Embeds the character-reconstruction loop of `decode_display_response`:
one character per nibble pair at offsets 1..40 (`for i in range(1, 41, 2)`). -/
def display_chars (data : List Nat) : List Char :=
  (List.range 20).foldl (fun display_text i =>
    let high_nibble := data.getD (2 * i + 1) 0 &&& 0x0F
    let low_nibble := data.getD (2 * i + 2) 0 &&& 0x0F
    display_text ++ display_char ((high_nibble <<< 4) ||| low_nibble)) []

/-- Embeds `decode_display_response`: raises (`none`) unless the response is
exactly 42 bytes starting with the echo address, then reconstructs the text
and strips whitespace from it. -/
def decode_display_response (data : List Nat) : Option String :=
  if data.length ≠ 42 then none
  else if data.getD 0 0 ≠ PC_ADDRESS then none
  else some (pyStrip (display_chars data)).asString

/-- Embeds `read_display_line` (READ_DISPLAY, 42-byte response). -/
def read_display_line (response : List Nat) : Option String :=
  read_register response 42 decode_display_response

/-- A 42-byte display response whose 40 data bytes are all filler nibbles. -/
def all_filler_response : List Nat :=
  0x01 :: (List.replicate 40 0xFF ++ [0x00])

/-- A 42-byte display response encoding `HELLO` followed by filler pairs. -/
def hello_response : List Nat :=
  0x01 :: ([0x04, 0x08, 0x04, 0x05, 0x04, 0x0C, 0x04, 0x0C, 0x04, 0x0F] ++
    List.replicate 30 0xFF ++ [0x00])

/-- C6: every well-formed 42-byte display response (byte 0 equal to the echo
address) decodes to the nibble-pair reconstruction with filler mapped to the
empty string, the degree glyph mapped to `°`, and surrounding whitespace
trimmed; in particular the all-filler response decodes to the empty string and
a response encoding `HELLO` followed by filler decodes to `HELLO`. -/
theorem C6_display_decoding :
    (∀ data : List Nat, data.length = 42 → data.getD 0 0 = PC_ADDRESS →
      decode_display_response data = some (pyStrip (display_chars data)).asString) ∧
    display_char 0xFF = [] ∧ display_char 0xDF = ['°'] ∧
    decode_display_response all_filler_response = some "" ∧
    decode_display_response hello_response = some "HELLO" := by
  refine ⟨?_, by decide, by decide, by decide, by decide⟩
  intro data h1 h2
  unfold decode_display_response
  rw [if_neg (by omega), if_neg (fun hne => hne h2)]

/-- Concrete instance of `C6_display_decoding`, instantiating the well-formed
case on the all-filler response. -/
theorem C6_witness :
    decode_display_response all_filler_response =
      some (pyStrip (display_chars all_filler_response)).asString :=
  C6_display_decoding.1 all_filler_response (by decide) (by decide)

/-! ## Inbound MQTT command dispatch (`on_mqtt_message`)

The handler decodes the payload with Python `int(...)`; a `ValueError` makes it
log and return before any topic routing.  We model `int()` for ASCII strings
(optional surrounding whitespace, optional sign, decimal digits with single
underscores allowed between digits) and the dispatcher as the list of serial
operations it performs. -/

/-- Tail of a Python decimal integer literal, after a digit: digits, with a
single underscore allowed only between two digits. -/
def validDigitsTail : List Char → Bool
  | [] => true
  | ['_'] => false
  | '_' :: c :: rest => c.isDigit && validDigitsTail rest
  | c :: rest => c.isDigit && validDigitsTail rest

/-- Body of a Python decimal integer literal: a leading digit then
`validDigitsTail`. -/
def validDigits : List Char → Bool
  | [] => false
  | c :: rest => c.isDigit && validDigitsTail rest

/-- Decimal value of the digits of a literal, skipping underscores. -/
def digitsVal (l : List Char) : Nat :=
  l.foldl (fun acc c => if c.isDigit then acc * 10 + (c.toNat - 48) else acc) 0

/-- Models Python `int(str)` for ASCII strings: strip whitespace, optional
sign, decimal digits with single underscores between digits; `none` models the
`ValueError` on anything else. -/
def pyParseInt (s : String) : Option Int :=
  match pyStrip s.toList with
  | '+' :: rest => if validDigits rest then some (digitsVal rest : Int) else none
  | '-' :: rest => if validDigits rest then some (-(digitsVal rest : Int)) else none
  | rest => if validDigits rest then some (digitsVal rest : Int) else none

/-- Value of `MQTT_TOPIC_PREFIX` in `rego600_config.py`. -/
def mqttTopicRoot : String := "rego600"

/-- Embeds `SETTINGS_MAP`. -/
def SETTINGS_MAP : List (String × Nat) :=
  [("Heat curve", 0x0000),
   ("Heat curve fine adj.", 0x0001),
   ("Indoor temp setting", 0x0021),
   ("Curve infl. by in-temp.", 0x0022),
   ("Heat curve coupling diff.", 0x0002),
   ("Adjust curve at +20° out", 0x001E),
   ("Adjust curve at +15° out", 0x001C),
   ("Adjust curve at +10° out", 0x001A),
   ("Adjust curve at +5° out", 0x0018),
   ("Adjust curve at 0° out", 0x0016),
   ("Adjust curve at -5° out", 0x0014),
   ("Adjust curve at -10° out", 0x0012),
   ("Adjust curve at -15° out", 0x0010),
   ("Adjust curve at -20° out", 0x000E),
   ("Adjust curve at -25° out", 0x000C),
   ("Adjust curve at -30° out", 0x000A),
   ("Adjust curve at -35° out", 0x0008)]

/-- Embeds `KEYPANEL_MAP`. -/
def KEYPANEL_MAP : List (String × Nat) :=
  [("Key 1", 0x0009),
   ("Key 2", 0x000A),
   ("Key 3", 0x000B),
   ("Wheel", 0x0044),
   ("Wheel left", 0xFF00),
   ("Wheel right", 0xFF01)]

/-- Embeds the `setting_topics` dict local to `on_mqtt_message`
(topic key → `SETTINGS_MAP` name). -/
def setting_topics : List (String × String) :=
  [("indoor_temp_setting", "Indoor temp setting"),
   ("heat_curve", "Heat curve"),
   ("heat_curve_fine_adj", "Heat curve fine adj."),
   ("curve_infl_by_in_temp", "Curve infl. by in-temp."),
   ("heat_curve_coupling_diff", "Heat curve coupling diff."),
   ("adjust_curve_at_20_out", "Adjust curve at +20° out"),
   ("adjust_curve_at_15_out", "Adjust curve at +15° out"),
   ("adjust_curve_at_10_out", "Adjust curve at +10° out"),
   ("adjust_curve_at_5_out", "Adjust curve at +5° out"),
   ("adjust_curve_at_0_out", "Adjust curve at 0° out"),
   ("adjust_curve_at_-5_out", "Adjust curve at -5° out"),
   ("adjust_curve_at_-10_out", "Adjust curve at -10° out"),
   ("adjust_curve_at_-15_out", "Adjust curve at -15° out"),
   ("adjust_curve_at_-20_out", "Adjust curve at -20° out"),
   ("adjust_curve_at_-25_out", "Adjust curve at -25° out"),
   ("adjust_curve_at_-30_out", "Adjust curve at -30° out"),
   ("adjust_curve_at_-35_out", "Adjust curve at -35° out")]

/-- Embeds the `key_topics` dict local to `on_mqtt_message`
(topic key → key name or wheel direction). -/
def key_topics : List (String × String) :=
  [("1", "Key 1"),
   ("2", "Key 2"),
   ("3", "Key 3"),
   ("wheel_left", "left"),
   ("wheel_right", "right")]

/-- Substring lookup on character lists (prefix test). -/
def charsStartWith : List Char → List Char → Bool
  | [], _ => true
  | _ :: _, [] => false
  | p :: ps, c :: cs => p == c && charsStartWith ps cs

/-- Substring lookup on character lists (containment at any offset). -/
def charsContain (pat : List Char) : List Char → Bool
  | [] => charsStartWith pat []
  | c :: cs => charsStartWith pat (c :: cs) || charsContain pat cs

/-- Python `pat in s` on strings. -/
def strContains (s pat : String) : Bool :=
  charsContain pat.toList s.toList

/-- A serial operation issued by the command handler. -/
inductive SerialOp where
  | settingWrite (reg_addr : Nat) (value : Int)
  | keyPress (reg_addr : Nat)
  | wheelTurn (direction : String)
deriving DecidableEq, Repr

/-- Embeds `on_mqtt_message` as the list of serial operations it issues for a
topic and payload: a non-integer payload is logged and ignored before any
routing; then the first matching `set/setting/<key>` topic issues a setting
write, the first matching `set/key/<key>` topic issues a wheel turn (keys
containing `"wheel"`) or a key press, and an unrecognized topic is logged and
ignored. -/
def on_mqtt_message (topic payload_raw : String) : List SerialOp :=
  match pyParseInt payload_raw with
  | none => []
  | some payload =>
    match setting_topics.find?
        (fun kv => topic == mqttTopicRoot ++ "/set/setting/" ++ kv.1) with
    | some kv =>
      match mapLookup SETTINGS_MAP kv.2 with
      | some reg_addr => [SerialOp.settingWrite reg_addr payload]
      | none => []
    | none =>
      match key_topics.find?
          (fun kv => topic == mqttTopicRoot ++ "/set/key/" ++ kv.1) with
      | some kv =>
        if strContains kv.1 "wheel" then [SerialOp.wheelTurn kv.2]
        else
          match mapLookup KEYPANEL_MAP kv.2 with
          | some reg_addr => [SerialOp.keyPress reg_addr]
          | none => []
      | none => []

/-- C8: a payload that does not parse as an integer makes `on_mqtt_message`
return (after logging) without issuing any serial operation: no setting write,
key press, or wheel turn. -/
theorem C8_invalid_payload_ignored (topic payload_raw : String)
    (h : pyParseInt payload_raw = none) :
    on_mqtt_message topic payload_raw = [] := by
  unfold on_mqtt_message
  rw [h]

/-- Concrete instance of `C8_invalid_payload_ignored` on a key-press topic with
a non-numeric payload. -/
theorem C8_witness :
    pyParseInt "abc" = none ∧ on_mqtt_message "rego600/set/key/1" "abc" = [] :=
  ⟨by decide, C8_invalid_payload_ignored "rego600/set/key/1" "abc" (by decide)⟩

end Rego600
